import Mathlib

/-!
Verification of the Selenium/pytest hotel-planisphere test framework.

Shallow embedding of the framework's pure decision logic and of its
artifact-lifecycle state machine:

* `src/core/driver_factory.py` — browser-kind dispatch (`build_driver`);
* `src/tests/conftest.py` — browser-selection precedence
  (`_resolve_browser_value`, `_browsers_from_value`) and the
  failure/skip artifact hook (`pytest_runtest_makereport`);
* `src/core/utils.py` — `slugify`;
* `src/core/csv_loader.py` — header-mode required-column checking of
  `read_csv`;
* `src/core/video_recorder.py` — the `stop()` sequence of `VideoRecorder`;
* `runners/run_suite.py` — worst-exit-code aggregation of `main`.

Machine strings are modelled as Lean `String`s (Python `str` is a sequence
of code points, as is the model via `String.data`); Python's "empty string
is falsy" convention is modelled by treating `""` as the unset value where
the source relies on truthiness.
-/

namespace HotelPlanisphere

/-! ## Python string primitives

`str.strip()` and `str.lower()` are modelled over the code-point list of a
string, with the ASCII whitespace set of Python's default `strip` and the
ASCII case mapping (the identifiers involved here — browser names, test
node ids — are ASCII). -/

/-- Default-whitespace test of Python `str.strip()` (ASCII subset). -/
def pyIsSpace (c : Char) : Bool :=
  c = ' ' || c = '\t' || c = '\n' || c = '\r' || c = '\x0b' || c = '\x0c'

/-- Python `str.strip()`: drop leading and trailing whitespace. -/
def pyStrip (l : List Char) : List Char :=
  ((l.dropWhile pyIsSpace).reverse.dropWhile pyIsSpace).reverse

/-- Python `str.lower()` per code point (ASCII case mapping). -/
def pyLowerChar (c : Char) : Char :=
  if 'A' ≤ c ∧ c ≤ 'Z' then Char.ofNat (c.toNat + 32) else c

/-- Python `s.strip().lower()` as one `String → String` operation. -/
def pyStripLower (s : String) : String :=
  ⟨(pyStrip s.data).map pyLowerChar⟩

/-! ## Driver factory (`src/core/driver_factory.py`) -/

/-- The three supported browser kinds of `build_driver`. -/
inductive BrowserKind where
  | chrome
  | firefox
  | edge
deriving DecidableEq, Repr

/-- `(browser or "chrome").strip().lower()` from `build_driver`
(`driver_factory.py` line 229).  `none` models Python `None`; the empty
string is falsy in Python, so both default to `"chrome"`. -/
def normalizeBrowserName (browser : Option String) : String :=
  pyStripLower
    (match browser with
     | none => "chrome"
     | some s => if s = "" then "chrome" else s)

/-- The names accepted by `build_driver`'s dispatch table: the three kinds
plus their aliases (`driver_factory.py` lines 230-235). -/
def supportedBrowserNames : List String :=
  ["chrome", "chromium", "ff", "firefox", "edge", "msedge", "microsoft-edge"]

/-- `build_driver` (`driver_factory.py` lines 219-236), restricted to its
dispatch decision: which browser-specific builder is invoked, or the
`ValueError "Unsupported browser: ..."` raised for unrecognized names.
The builders themselves launch external browser processes and are outside
the embedding. -/
def build_driver (browser : Option String) : Except String BrowserKind :=
  let b := normalizeBrowserName browser
  if b = "chrome" ∨ b = "chromium" then .ok .chrome
  else if b = "ff" ∨ b = "firefox" then .ok .firefox
  else if b = "edge" ∨ b = "msedge" ∨ b = "microsoft-edge" then .ok .edge
  else .error ("Unsupported browser: " ++ b)

/-! ## Browser selection (`src/tests/conftest.py`) -/

/-- The inputs read by `_resolve_browser_value`: the two environment
variables, the `--browser` CLI option, whether a single test target was
given on the command line, and the two YAML configuration entries.
`""` models an unset/`None` value (Python truthiness). -/
structure BrowserConfigInputs where
  env_BROWSER : String
  env_PYTEST_BROWSER : String
  cli_browser : String
  invoked_single_target : Bool
  cfg_default_single_file_browser : Option String
  cfg_browser : Option String
deriving DecidableEq, Repr

/-- `_resolve_browser_value` (`conftest.py` lines 80-96): environment
override, then CLI flag, then (for a single-target invocation) the
configured single-file default, then the configured general default. -/
def resolve_browser_value (i : BrowserConfigInputs) : String :=
  let env_val := if i.env_BROWSER ≠ "" then i.env_BROWSER else i.env_PYTEST_BROWSER
  if env_val ≠ "" then env_val
  else if i.cli_browser ≠ "" then i.cli_browser
  else if i.invoked_single_target then i.cfg_default_single_file_browser.getD "chrome"
  else i.cfg_browser.getD "chrome"

/-- `_browsers_from_value` (`conftest.py` lines 67-69):
`b = (val or "chrome").strip().lower()`, expanding `"all"` to the full
supported set. -/
def browsers_from_value (val : String) : List String :=
  let b := pyStripLower (if val = "" then "chrome" else val)
  if b = "all" then ["chrome", "firefox", "edge"] else [b]

/-! ## Slugification (`src/core/utils.py`) -/

/-- The character class `[a-z0-9._-]` of `slugify`'s regex
(`utils.py` line 28). -/
def slugAllowed (c : Char) : Bool :=
  ('a' ≤ c && c ≤ 'z') || ('0' ≤ c && c ≤ '9') || c = '.' || c = '_' || c = '-'

/-- The single-character separator replacements of `utils.py` line 27:
`os.sep` (`"/"` on the POSIX layout this repo runs on), `"/"` and `"\\"`
each become `"_"`. -/
def sepChar (c : Char) : Char :=
  if c = '/' ∨ c = '\\' then '_' else c

/-- `.replace("::", "__")` (`utils.py` line 27): left-to-right,
non-overlapping. -/
def replaceDoubleColon : List Char → List Char
  | [] => []
  | ':' :: ':' :: rest => '_' :: '_' :: replaceDoubleColon rest
  | c :: rest => c :: replaceDoubleColon rest

/-- `re.sub(r"[^a-z0-9._-]+", "_", s)` (`utils.py` line 28): each maximal
run of characters outside the class becomes one `'_'`.  `prevBad` records
whether the previous character belonged to a disallowed run. -/
def subDisallowedAux (prevBad : Bool) : List Char → List Char
  | [] => []
  | c :: rest =>
    if slugAllowed c then c :: subDisallowedAux false rest
    else if prevBad then subDisallowedAux true rest
    else '_' :: subDisallowedAux true rest

/-- `re.sub(r"[^a-z0-9._-]+", "_", s)` over a whole list. -/
def subDisallowed (l : List Char) : List Char := subDisallowedAux false l

/-- `re.sub(r"_+", "_", s)` (`utils.py` line 29): each maximal run of
underscores becomes a single `'_'`. -/
def collapseUnderscoresAux (prevU : Bool) : List Char → List Char
  | [] => []
  | c :: rest =>
    if c = '_' then
      if prevU then collapseUnderscoresAux true rest
      else '_' :: collapseUnderscoresAux true rest
    else c :: collapseUnderscoresAux false rest

/-- `re.sub(r"_+", "_", s)` over a whole list. -/
def collapseUnderscores (l : List Char) : List Char := collapseUnderscoresAux false l

/-- `.strip("_")` (`utils.py` line 29). -/
def stripUnderscores (l : List Char) : List Char :=
  ((l.dropWhile (fun c => c = '_')).reverse.dropWhile (fun c => c = '_')).reverse

/-- `slugify` (`utils.py` lines 20-30): trim + lowercase, map path
separators to `'_'` and `"::"` to `"__"`, replace runs of characters
outside `[a-z0-9._-]` by `'_'`, collapse runs of `'_'`, strip edge
underscores, and truncate to `max_len` (`s[:max_len]` when longer, which
equals `take max_len` in all cases). -/
def slugify (s : String) (max_len : Nat := 120) : String :=
  let l1 := (pyStrip s.data).map pyLowerChar
  let l2 := replaceDoubleColon (l1.map sepChar)
  let l3 := subDisallowed l2
  let l4 := stripUnderscores (collapseUnderscores l3)
  ⟨l4.take max_len⟩

/-! ## CSV loader (`src/core/csv_loader.py`)

Header mode of `read_csv`.  The `csv.DictReader` parsing itself is the
external stdlib collaborator; its output is the model's input: one raw row
per data line, as an association list from raw header name to cell value
(`none` models a missing cell, which `_to_str` turns into `""`; the
`None`-key bucket for extra cells is skipped by the source before any
processing and is not represented). -/

/-- `_norm_header` (`csv_loader.py` lines 71-84): trim, then lowercase and
map spaces/dashes to underscores in mode `"lower_underscore"`, only
lowercase in mode `"lower"`, identity otherwise. -/
def norm_header (h : String) (mode : String) : String :=
  let s : String := ⟨pyStrip h.data⟩
  if mode = "lower" then ⟨s.data.map pyLowerChar⟩
  else if mode = "lower_underscore" then
    ⟨(pyStrip s.data).map pyLowerChar |>.map
      (fun c => if c = ' ' then '_' else c) |>.map
      (fun c => if c = '-' then '_' else c)⟩
  else s

/-- `_to_str(v).strip()` for a cell value (`csv_loader.py` lines 141-146,
155): `None` becomes `""`, then trim. -/
def to_str_strip (v : Option String) : String :=
  ⟨pyStrip (match v with | none => "" | some s => s).data⟩

/-- Python-dict assignment `d[k] = v` on an association list: overwrite an
existing binding in place, else append. -/
def dictSet (d : List (String × String)) (k : String) (v : String) :
    List (String × String) :=
  if d.any (fun p => p.1 = k) then
    d.map (fun p => if p.1 = k then (k, v) else p)
  else d ++ [(k, v)]

/-- The keys of an association-list dict, in insertion order. -/
def dictKeys (d : List (String × String)) : List String := d.map (·.1)

/-- The per-row cleaning loop of `read_csv`'s header mode
(`csv_loader.py` lines 149-156): normalize each key, stringify and trim
each value, build the clean dict. -/
def clean_row (mode : String) (row : List (String × Option String)) :
    List (String × String) :=
  row.foldl (fun clean kv => dictSet clean (norm_header kv.1 mode) (to_str_strip kv.2)) []

/-- The normalized keys of the first row, or `[]` when there are no data
rows (`rows[0].keys()` in `csv_loader.py` line 159). -/
def firstRowKeys (rawRows : List (List (String × Option String))) (mode : String) :
    List String :=
  match rawRows with
  | [] => []
  | r :: _ => dictKeys (clean_row mode r)

/-- Header mode of `read_csv` (`csv_loader.py` lines 138-162): clean every
row, then, when `required` is non-empty (Python truthiness of the
`required` argument), fail with a `KeyError` listing the missing columns —
all of `required` when there are no rows, else those absent from the first
row's keys — and otherwise return the cleaned rows. -/
def read_csv_header_mode (rawRows : List (List (String × Option String)))
    (mode : String) (required : List String) :
    Except (List String) (List (List (String × String))) :=
  let rows := rawRows.map (clean_row mode)
  if required ≠ [] then
    let missing :=
      match rows with
      | [] => required
      | r :: _ => required.filter (fun c => c ∉ dictKeys r)
    if missing ≠ [] then .error missing else .ok rows
  else .ok rows

/-! ## Video recorder (`src/core/video_recorder.py`)

The `stop()` sequence.  The capture thread, ffmpeg process and filesystem
are external collaborators; their observable contributions are inputs:
the number of `frame_*.png` files in the temp dir at stop time, and the
encoder's behaviour. `reason` follows Python truthiness: `""` models an
unset `self._reason = None`, and every reason string the source assigns is
non-empty. -/

/-- Recorder state when `stop()` is entered: `framesDir = some n` models an
existing temp frames directory holding `n` captured `frame_*.png` files;
`none` models `self._frames_dir is None` (capture never started). -/
structure RecorderState where
  framesDir : Option Nat
  reason : String
deriving DecidableEq, Repr

/-- The external encoding environment of one `stop()` call: whether
`_resolve_ffmpeg` finds an executable, whether the ffmpeg process exits
zero, and whether the output file exists afterwards. -/
structure EncodeEnv where
  ffmpegFound : Bool
  encoderExitZero : Bool
  outfileAppears : Bool
deriving DecidableEq, Repr

/-- Observable outcome of `stop()`: the recorder's frames-dir reference
afterwards, whether the temp frame files were deleted, the final failure
reason, whether ffmpeg was invoked and on how many frame files, and
whether an output video file was produced. -/
structure StopResult where
  framesDir : Option Nat
  framesDirRemoved : Bool
  reason : String
  encoderInvoked : Bool
  encoderInputFrames : Nat
  producedVideo : Bool
deriving DecidableEq, Repr

/-- `VideoRecorder.stop` (`video_recorder.py` lines 187-249): with no
frames dir, set a reason (if unset) and return; otherwise set the
"no frames" reason when zero frames were captured (if unset), duplicate
the frame when exactly one was captured, encode when any frames exist
(each encoder failure mode overwriting the reason), and always delete the
frames dir and clear its reference (the `try/finally` cleanup). -/
def VideoRecorder_stop (s : RecorderState) (env : EncodeEnv) : StopResult :=
  match s.framesDir with
  | none =>
    { framesDir := none
      framesDirRemoved := false
      reason := if s.reason = "" then "No frames directory (capture did not start)." else s.reason
      encoderInvoked := false
      encoderInputFrames := 0
      producedVideo := false }
  | some n =>
    let reason1 := if n = 0 then (if s.reason = "" then "No frames captured." else s.reason)
                   else s.reason
    let n1 := if n = 1 then 2 else n
    if n1 ≠ 0 then
      if env.ffmpegFound = false then
        { framesDir := none, framesDirRemoved := true
          reason := "FFmpeg not found on PATH or via configured path."
          encoderInvoked := false, encoderInputFrames := n1, producedVideo := false }
      else if env.encoderExitZero = false then
        { framesDir := none, framesDirRemoved := true
          reason := "FFmpeg exited with a non-zero code."
          encoderInvoked := true, encoderInputFrames := n1, producedVideo := false }
      else if env.outfileAppears = false then
        { framesDir := none, framesDirRemoved := true
          reason := "FFmpeg reported success but MP4 not found."
          encoderInvoked := true, encoderInputFrames := n1, producedVideo := false }
      else
        { framesDir := none, framesDirRemoved := true
          reason := reason1
          encoderInvoked := true, encoderInputFrames := n1, producedVideo := true }
    else
      { framesDir := none, framesDirRemoved := true
        reason := reason1
        encoderInvoked := false, encoderInputFrames := n1, producedVideo := false }

/-! ## Report hook (`pytest_runtest_makereport`, `conftest.py` lines 371-456)

State machine over the per-test artifact bundle.  The artifact directory
can contain only the three derived files (screenshot, video, log), so
directory emptiness is their joint absence.  The log file is modelled by
the number of records written to it (`none` = file absent); the in-memory
`MemoryHandler` buffer by its record count.  Best-effort external effects
are inputs: `capturable` (a driver is available and the screenshot save
succeeds), `reasonNonempty` (`longreprtext` is non-empty), and the video
recorder fixture's stop-time effects. -/

/-- A pytest test-protocol phase (`report.when`). -/
inductive Phase where
  | setup
  | call
  | teardown
deriving DecidableEq, Repr

/-- A report outcome: exactly one of `passed`/`failed`/`skipped`. -/
inductive Outcome where
  | passed
  | failed
  | skipped
deriving DecidableEq, Repr

/-- Observable per-test artifact state as the hook sees it. -/
structure HookState where
  hadFailure : Bool
  dirExists : Bool
  screenshotExists : Bool
  logFile : Option Nat
  videoExists : Bool
  bufferedRecords : Nat
  fileHandlerAttached : Bool
  attachments : List String
deriving DecidableEq, Repr

/-- State at test start: nothing on disk, nothing attached; the buffer may
already hold `buffered` records (console/test logging never writes to
disk). -/
def freshState (buffered : Nat) : HookState :=
  { hadFailure := false, dirExists := false, screenshotExists := false,
    logFile := none, videoExists := false, bufferedRecords := buffered,
    fileHandlerAttached := false, attachments := [] }

/-- One invocation of `pytest_runtest_makereport` (`conftest.py` lines
371-456) for the report of phase `when` with the given outcome:
mark `_had_failure` for a failed/skipped setup or call report; on a
failed/skipped setup/call report create the artifact dir, best-effort
screenshot + attach, and — only when the `test_logger` fixture is present
in `item.funcargs` (the `if tl:` guard, line 413; it is absent when setup
fails or skips before that fixture is instantiated) — log the summary
line(s) (one `logger.error`, plus one more when a reason text exists),
materialize the buffered log to the file (keeping the file handler
attached) and attach it when non-empty (deleting it when empty); on the
teardown report, attach the video if any setup/call phase failed or was
skipped, else discard the buffer (again guarded by `if tl:`, line 443),
delete a zero-byte log file, delete the video, and remove the artifact
dir if empty. -/
def processReport (capturable reasonNonempty loggerPresent : Bool) (st : HookState)
    (when : Phase) (outcome : Outcome) : HookState :=
  let st :=
    if (when = .setup ∨ when = .call) ∧ (outcome = .failed ∨ outcome = .skipped) then
      { st with hadFailure := true }
    else st
  match when with
  | .setup | .call =>
    if outcome = .failed ∨ outcome = .skipped then
      let st := { st with dirExists := true }
      let st :=
        if capturable then
          { st with screenshotExists := true,
                    attachments := st.attachments ++ ["screenshot.png"] }
        else st
      if loggerPresent then
        let newRecords := if reasonNonempty then 2 else 1
        let st :=
          if st.fileHandlerAttached then
            { st with logFile := some (st.logFile.getD 0 + newRecords),
                      bufferedRecords := st.bufferedRecords + newRecords }
          else { st with bufferedRecords := st.bufferedRecords + newRecords }
        let st := { st with logFile := some (st.logFile.getD 0 + st.bufferedRecords),
                            bufferedRecords := 0, fileHandlerAttached := true }
        if 0 < st.logFile.getD 0 then
          { st with attachments := st.attachments ++ ["test.log"] }
        else { st with logFile := none }
      else st
    else st
  | .teardown =>
    if st.hadFailure then
      if st.videoExists then { st with attachments := st.attachments ++ ["test.mp4"] }
      else st
    else
      let st := if loggerPresent then { st with bufferedRecords := 0 } else st
      let st := if st.logFile = some 0 then { st with logFile := none } else st
      let st := { st with videoExists := false }
      if st.dirExists && !st.screenshotExists && st.logFile == none && !st.videoExists then
        { st with dirExists := false }
      else st

/-- The video-recorder fixture's finalization during the teardown phase
(`conftest.py` lines 364-368 invoking `VideoRecorder.stop`): when encoding
is attempted, `outfile.parent.mkdir` creates the artifact dir
(`video_recorder.py` line 221), and on success the video file appears. -/
def recorderStop (attempted produced : Bool) (st : HookState) : HookState :=
  { st with dirExists := st.dirExists || attempted,
            videoExists := st.videoExists || (attempted && produced) }

/-- The inputs of one whole test invocation as the hook sees it.
`callOutcome = none` models a call phase that never ran (pytest skips it
when setup did not pass); `loggerPresent` models the `test_logger` fixture
being present in `item.funcargs` (it is absent when setup fails or skips
before that fixture is instantiated, e.g. a session driver launch failure
or a marker skip). -/
structure TestRun where
  setupOutcome : Outcome
  callOutcome : Option Outcome
  teardownOutcome : Outcome
  capturable : Bool
  reasonNonempty : Bool
  loggerPresent : Bool
  videoAttempted : Bool
  videoProduced : Bool
deriving DecidableEq, Repr

/-- Process a whole test invocation: the setup report, the call report (if
the call phase ran), the video recorder's fixture finalization, then the
teardown report. -/
def runTest (r : TestRun) (buffered : Nat) : HookState :=
  let st := freshState buffered
  let st := processReport r.capturable r.reasonNonempty r.loggerPresent st
    .setup r.setupOutcome
  let st :=
    match r.callOutcome with
    | some o => processReport r.capturable r.reasonNonempty r.loggerPresent st .call o
    | none => st
  let st := recorderStop r.videoAttempted r.videoProduced st
  processReport r.capturable r.reasonNonempty r.loggerPresent st
    .teardown r.teardownOutcome

/-- A video file was produced for this run. -/
def videoWasProduced (r : TestRun) : Bool :=
  r.videoAttempted && r.videoProduced

/-- The log file exists and is non-empty. -/
def logNonempty (st : HookState) : Bool :=
  match st.logFile with
  | some k => decide (0 < k)
  | none => false

/-- "No residual artifacts": no log file (the buffer was never written),
no video, no screenshot, the artifact dir removed, nothing attached. -/
def noResidualArtifacts (st : HookState) : Prop :=
  st.logFile = none ∧ st.videoExists = false ∧ st.screenshotExists = false ∧
    st.dirExists = false ∧ st.attachments = []

/-- The failure artifacts exactly as the claim demands them: the log file
exists non-empty and is attached (unconditionally), a screenshot exists
and is attached when capturable, and the video exists and is attached
when one was produced. -/
def failureArtifacts (r : TestRun) (st : HookState) : Prop :=
  logNonempty st = true ∧ "test.log" ∈ st.attachments ∧
  (r.capturable = true →
    st.screenshotExists = true ∧ "screenshot.png" ∈ st.attachments) ∧
  (videoWasProduced r = true →
    st.videoExists = true ∧ "test.mp4" ∈ st.attachments)

/-- The failure artifacts as the code produces them: the log file exists
non-empty and is attached when the `test_logger` fixture was available
(and no log file exists when it was not); screenshot and video as in
`failureArtifacts`. -/
def codeFailureArtifacts (r : TestRun) (st : HookState) : Prop :=
  (r.loggerPresent = true →
    logNonempty st = true ∧ "test.log" ∈ st.attachments) ∧
  (r.loggerPresent = false → st.logFile = none) ∧
  (r.capturable = true →
    st.screenshotExists = true ∧ "screenshot.png" ∈ st.attachments) ∧
  (videoWasProduced r = true →
    st.videoExists = true ∧ "test.mp4" ∈ st.attachments)

/-- Every phase of the run (setup, call if it ran, teardown) passed. -/
def allPhasesClean (r : TestRun) : Prop :=
  r.setupOutcome = .passed ∧
    (r.callOutcome = none ∨ r.callOutcome = some .passed) ∧
    r.teardownOutcome = .passed

/-- The setup and call phases completed without failure or skip. -/
def setupCallClean (r : TestRun) : Prop :=
  r.setupOutcome = .passed ∧
    (r.callOutcome = none ∨ r.callOutcome = some .passed)

instance (st : HookState) : Decidable (noResidualArtifacts st) := by
  unfold noResidualArtifacts
  infer_instance

instance (r : TestRun) (st : HookState) : Decidable (failureArtifacts r st) := by
  unfold failureArtifacts
  infer_instance

instance (r : TestRun) (st : HookState) : Decidable (codeFailureArtifacts r st) := by
  unfold codeFailureArtifacts
  infer_instance

instance (r : TestRun) : Decidable (allPhasesClean r) := by
  unfold allPhasesClean
  infer_instance

instance (r : TestRun) : Decidable (setupCallClean r) := by
  unfold setupCallClean
  infer_instance

/-- C1 as the spec states it: clean pass (all phases) leaves no residual
artifacts; any failed or skipped phase leaves the failure artifacts. -/
def claimC1Spec (r : TestRun) (buffered : Nat) : Prop :=
  if allPhasesClean r then noResidualArtifacts (runTest r buffered)
  else failureArtifacts r (runTest r buffered)

/-- C1 as the code implements it: the branch is decided by the setup and
call phases only (a teardown-phase failure still takes the cleanup path),
and the log is materialized and attached only when the `test_logger`
fixture was available. -/
def claimC1Amended (r : TestRun) (buffered : Nat) : Prop :=
  if setupCallClean r then noResidualArtifacts (runTest r buffered)
  else codeFailureArtifacts r (runTest r buffered)

instance (r : TestRun) (b : Nat) : Decidable (claimC1Spec r b) := by
  unfold claimC1Spec
  split <;> infer_instance

instance (r : TestRun) (b : Nat) : Decidable (claimC1Amended r b) := by
  unfold claimC1Amended
  split <;> infer_instance

/-! ## Suite runner (`runners/run_suite.py`) -/

/-- The exit-code aggregation of `main` (`run_suite.py` lines 85-93):
`worst = rc if rc > worst else worst`, starting from `0`, over the
per-browser pytest exit codes. -/
def worst_exit_code (codes : List Int) : Int :=
  codes.foldl (fun worst rc => if rc > worst then rc else worst) 0

theorem worst_exit_code_foldl_ge (codes : List Int) (w : Int) :
    w ≤ codes.foldl (fun worst rc => if rc > worst then rc else worst) w := by
  induction codes generalizing w with
  | nil => simp
  | cons c cs ih =>
    simp only [List.foldl_cons]
    refine le_trans ?_ (ih (if c > w then c else w))
    split <;> omega

theorem worst_exit_code_foldl_mem (codes : List Int) (w : Int) (c : Int)
    (hc : c ∈ codes) :
    c ≤ codes.foldl (fun worst rc => if rc > worst then rc else worst) w := by
  induction codes generalizing w with
  | nil => simp at hc
  | cons d ds ih =>
    simp only [List.foldl_cons]
    rcases List.mem_cons.mp hc with h | h
    · subst h
      refine le_trans ?_ (worst_exit_code_foldl_ge ds _)
      split <;> omega
    · exact ih _ h

theorem worst_exit_code_foldl_attained (codes : List Int) (w : Int) :
    codes.foldl (fun worst rc => if rc > worst then rc else worst) w ∈ codes ∨
      codes.foldl (fun worst rc => if rc > worst then rc else worst) w = w := by
  induction codes generalizing w with
  | nil => simp
  | cons d ds ih =>
    simp only [List.foldl_cons]
    rcases ih (if d > w then d else w) with h | h
    · exact Or.inl (List.mem_cons_of_mem _ h)
    · rw [h]
      split
      · exact Or.inl (List.mem_cons_self _ _)
      · exact Or.inr rfl

/-! ## Character-level helper lemmas -/

theorem toNat_ofNat_valid (n : Nat) (h : n.isValidChar) : (Char.ofNat n).toNat = n := by
  rw [Char.ofNat, dif_pos h]
  rfl

theorem pyLowerChar_toNat (c : Char) (h : 'A' ≤ c ∧ c ≤ 'Z') :
    (pyLowerChar c).toNat = c.toNat + 32 := by
  obtain ⟨h1, h2⟩ := h
  have l2 : c.toNat ≤ 90 := by simpa using h2
  rw [pyLowerChar, if_pos ⟨h1, h2⟩]
  exact toNat_ofNat_valid _ (Or.inl (by omega))

theorem pyIsSpace_toNat (c : Char) : pyIsSpace c = true ↔
    c.toNat = 32 ∨ c.toNat = 9 ∨ c.toNat = 10 ∨ c.toNat = 13 ∨
      c.toNat = 11 ∨ c.toNat = 12 := by
  constructor
  · intro h
    simp only [pyIsSpace, Bool.or_eq_true, decide_eq_true_eq] at h
    rcases h with ((((h | h) | h) | h) | h) | h <;> subst h <;> simp
  · intro h
    have hc : c = ' ' ∨ c = '\t' ∨ c = '\n' ∨ c = '\r' ∨ c = '\x0b' ∨ c = '\x0c' := by
      rcases h with h | h | h | h | h | h <;>
        [skip; skip; skip; skip; skip; skip] <;>
        · have := congrArg Char.ofNat h
          rw [Char.ofNat_toNat] at this
          subst this
          simp
    rcases hc with h | h | h | h | h | h <;> subst h <;> decide

theorem pyIsSpace_pyLowerChar (c : Char) : pyIsSpace (pyLowerChar c) = pyIsSpace c := by
  by_cases h : 'A' ≤ c ∧ c ≤ 'Z'
  · have l1 : 65 ≤ c.toNat := by simpa using h.1
    have l2 : c.toNat ≤ 90 := by simpa using h.2
    have ht := pyLowerChar_toNat c h
    have hlow : pyIsSpace (pyLowerChar c) = false := by
      by_contra hcon
      rw [Bool.not_eq_false] at hcon
      have := (pyIsSpace_toNat _).mp hcon
      omega
    have hup : pyIsSpace c = false := by
      by_contra hcon
      rw [Bool.not_eq_false] at hcon
      have := (pyIsSpace_toNat _).mp hcon
      omega
    rw [hlow, hup]
  · rw [pyLowerChar, if_neg h]

/-! ## Slugification helper lemmas -/

theorem subDisallowedAux_allowed (l : List Char) (b : Bool) :
    ∀ c ∈ subDisallowedAux b l, slugAllowed c = true := by
  induction l generalizing b with
  | nil =>
    intro c hc
    simp [subDisallowedAux] at hc
  | cons d rest ih =>
    intro c hc
    simp only [subDisallowedAux] at hc
    by_cases hd : slugAllowed d
    · rw [if_pos hd] at hc
      rcases List.mem_cons.mp hc with rfl | hc
      · exact hd
      · exact ih false c hc
    · rw [if_neg hd] at hc
      split at hc
      · exact ih true c hc
      · rcases List.mem_cons.mp hc with rfl | hc
        · decide
        · exact ih true c hc

theorem collapseUnderscoresAux_subset (l : List Char) (b : Bool) :
    ∀ c ∈ collapseUnderscoresAux b l, c ∈ l := by
  induction l generalizing b with
  | nil =>
    intro c hc
    simp [collapseUnderscoresAux] at hc
  | cons d rest ih =>
    intro c hc
    simp only [collapseUnderscoresAux] at hc
    by_cases hd : d = '_'
    · rw [if_pos hd] at hc
      subst hd
      split at hc
      · exact List.mem_cons_of_mem _ (ih true c hc)
      · rcases List.mem_cons.mp hc with rfl | hc
        · exact List.mem_cons_self _ _
        · exact List.mem_cons_of_mem _ (ih true c hc)
    · rw [if_neg hd] at hc
      rcases List.mem_cons.mp hc with rfl | hc
      · exact List.mem_cons_self _ _
      · exact List.mem_cons_of_mem _ (ih false c hc)

theorem collapseUnderscoresAux_true_head (l : List Char) :
    ∀ c t, collapseUnderscoresAux true l = c :: t → c ≠ '_' := by
  induction l with
  | nil =>
    intro c t h
    simp [collapseUnderscoresAux] at h
  | cons d rest ih =>
    intro c t h
    simp only [collapseUnderscoresAux, if_pos, if_neg] at h
    split at h
    · exact ih c t h
    · rename_i hd
      obtain ⟨rfl, -⟩ := List.cons.inj h
      simpa using hd

theorem collapseUnderscoresAux_chain (l : List Char) (b : Bool) :
    (collapseUnderscoresAux b l).Chain' (fun a b => ¬(a = '_' ∧ b = '_')) := by
  induction l generalizing b with
  | nil => simp [collapseUnderscoresAux]
  | cons d rest ih =>
    simp only [collapseUnderscoresAux]
    split
    · cases b with
      | true => exact ih true
      | false =>
        simp only [if_neg Bool.false_ne_true, Bool.false_eq_true, ite_false]
        apply List.chain'_cons'.mpr
        refine ⟨?_, ih true⟩
        intro y hy
        cases hl : collapseUnderscoresAux true rest with
        | nil => simp [hl] at hy
        | cons z zs =>
          rw [hl] at hy
          simp only [List.head?_cons, Option.mem_def, Option.some.injEq] at hy
          subst hy
          have := collapseUnderscoresAux_true_head rest z zs hl
          rintro ⟨-, h2⟩
          exact this h2
    · apply List.chain'_cons'.mpr
      refine ⟨?_, ih false⟩
      rename_i hd
      rintro y hy ⟨h1, h2⟩
      exact hd h1

theorem stripUnderscores_subset (l : List Char) :
    ∀ c ∈ stripUnderscores l, c ∈ l := by
  intro c hc
  simp only [stripUnderscores, List.mem_reverse] at hc
  have h1 := (List.dropWhile_suffix (l := (l.dropWhile (fun c => c = '_')).reverse)
    (fun c => c = '_')).sublist.subset hc
  rw [List.mem_reverse] at h1
  exact (List.dropWhile_suffix (fun c => c = '_')).sublist.subset h1

theorem chain_noDD_reverse {l : List Char}
    (h : l.Chain' (fun a b => ¬(a = '_' ∧ b = '_'))) :
    l.reverse.Chain' (fun a b => ¬(a = '_' ∧ b = '_')) := by
  apply List.chain'_reverse.mpr
  exact h.imp (fun a b hr hab => hr ⟨hab.2, hab.1⟩)

theorem stripUnderscores_chain {l : List Char}
    (h : l.Chain' (fun a b => ¬(a = '_' ∧ b = '_'))) :
    (stripUnderscores l).Chain' (fun a b => ¬(a = '_' ∧ b = '_')) := by
  apply chain_noDD_reverse
  refine List.Chain'.suffix ?_ (List.dropWhile_suffix _)
  apply chain_noDD_reverse
  exact h.suffix (List.dropWhile_suffix _)

theorem pyStrip_map_pyLowerChar (u : List Char) :
    pyStrip (u.map pyLowerChar) = (pyStrip u).map pyLowerChar := by
  have hpf : (pyIsSpace ∘ pyLowerChar) = pyIsSpace := funext pyIsSpace_pyLowerChar
  simp only [pyStrip, List.dropWhile_map, hpf, ← List.map_reverse]

/-! ## Claim theorems: driver factory, browser selection, suite runner -/

/-- C7: a `browser_kind` string whose normalized form is not among the
supported kinds {chrome, firefox, edge} or their accepted aliases
(chromium, ff, msedge, microsoft-edge) makes `build_driver` fail with an
"unsupported browser" error; every supported kind or alias dispatches to
the corresponding browser builder. -/
theorem build_driver_dispatch (s : String) :
    (normalizeBrowserName (some s) ∉ supportedBrowserNames →
      build_driver (some s) =
        .error ("Unsupported browser: " ++ normalizeBrowserName (some s))) ∧
    (normalizeBrowserName (some s) = "chrome" ∨
        normalizeBrowserName (some s) = "chromium" →
      build_driver (some s) = .ok .chrome) ∧
    (normalizeBrowserName (some s) = "ff" ∨
        normalizeBrowserName (some s) = "firefox" →
      build_driver (some s) = .ok .firefox) ∧
    (normalizeBrowserName (some s) = "edge" ∨
        normalizeBrowserName (some s) = "msedge" ∨
        normalizeBrowserName (some s) = "microsoft-edge" →
      build_driver (some s) = .ok .edge) := by
  refine ⟨?_, ?_, ?_, ?_⟩
  · intro h
    simp only [supportedBrowserNames, List.mem_cons, List.not_mem_nil,
      or_false, not_or] at h
    obtain ⟨h1, h2, h3, h4, h5, h6, h7⟩ := h
    simp only [build_driver]
    rw [if_neg (by tauto), if_neg (by tauto), if_neg (by tauto)]
  · intro h
    rcases h with h | h <;> simp [build_driver, h]
  · intro h
    rcases h with h | h <;> simp [build_driver, h]
  · intro h
    rcases h with h | h | h <;> simp [build_driver, h]

/-- Witness for C7 at concrete inputs: "Opera" is rejected and
" MSEdge " (after trim/lowercase) dispatches to the Edge builder. -/
theorem build_driver_dispatch_witness :
    build_driver (some "Opera") = .error ("Unsupported browser: opera") ∧
    build_driver (some " MSEdge ") = .ok .edge := by
  constructor
  · have h := (build_driver_dispatch "Opera").1 (by decide)
    rw [show normalizeBrowserName (some "Opera") = "opera" from by decide] at h
    exact h
  · exact (build_driver_dispatch " MSEdge ").2.2.2 (by decide)

/-- C9: `build_driver` with a `None` or empty browser argument defaults the
name to "chrome" and dispatches to the Chrome builder rather than raising
the unsupported-browser error. -/
theorem build_driver_none_empty_defaults_chrome :
    build_driver none = .ok .chrome ∧ build_driver (some "") = .ok .chrome :=
  ⟨rfl, rfl⟩

/-- C5: browser-selection precedence of `_resolve_browser_value`:
environment override (BROWSER, else PYTEST_BROWSER) beats the `--browser`
CLI flag, which beats the configured single-file default (when a single
target was invoked), which beats the configured general default; and
`_browsers_from_value "all"` expands to the full supported set. -/
theorem resolve_browser_precedence (i : BrowserConfigInputs) :
    ((if i.env_BROWSER ≠ "" then i.env_BROWSER else i.env_PYTEST_BROWSER) ≠ "" →
      resolve_browser_value i =
        (if i.env_BROWSER ≠ "" then i.env_BROWSER else i.env_PYTEST_BROWSER)) ∧
    ((if i.env_BROWSER ≠ "" then i.env_BROWSER else i.env_PYTEST_BROWSER) = "" →
      i.cli_browser ≠ "" → resolve_browser_value i = i.cli_browser) ∧
    ((if i.env_BROWSER ≠ "" then i.env_BROWSER else i.env_PYTEST_BROWSER) = "" →
      i.cli_browser = "" → i.invoked_single_target = true →
      resolve_browser_value i = i.cfg_default_single_file_browser.getD "chrome") ∧
    ((if i.env_BROWSER ≠ "" then i.env_BROWSER else i.env_PYTEST_BROWSER) = "" →
      i.cli_browser = "" → i.invoked_single_target = false →
      resolve_browser_value i = i.cfg_browser.getD "chrome") ∧
    browsers_from_value "all" = ["chrome", "firefox", "edge"] := by
  refine ⟨?_, ?_, ?_, ?_, by decide⟩ <;>
    simp only [resolve_browser_value] <;> intro h₁ <;> simp_all

/-- Witness for C5 at a concrete input: with both `BROWSER=firefox` and
`--browser=edge` set, the environment override wins. -/
theorem resolve_browser_precedence_witness :
    resolve_browser_value
      { env_BROWSER := "firefox", env_PYTEST_BROWSER := "",
        cli_browser := "edge", invoked_single_target := false,
        cfg_default_single_file_browser := none, cfg_browser := none } =
      "firefox" := by
  have h := (resolve_browser_precedence
    { env_BROWSER := "firefox", env_PYTEST_BROWSER := "",
      cli_browser := "edge", invoked_single_target := false,
      cfg_default_single_file_browser := none, cfg_browser := none }).1
  simpa using h (by decide)

/-- C4: for every input, `slugify` yields a string whose characters all lie
in `[a-z0-9._-]` (hence lowercase), with no two adjacent underscores (runs
collapsed), of length at most 120; identities differing only in case map
to the same slug, and so do the concrete separator variants (`/`, `\`,
`::` all collapse to `_`). -/
theorem slugify_spec (s : String) :
    (∀ c ∈ (slugify s).data, slugAllowed c = true) ∧
    (slugify s).data.Chain' (fun a b => ¬(a = '_' ∧ b = '_')) ∧
    (slugify s).data.length ≤ 120 ∧
    (∀ t : String, s.data.map pyLowerChar = t.data.map pyLowerChar →
      slugify s = slugify t) ∧
    slugify "tests/test_signup.py::test_signup[Row 1]" =
      slugify "tests\\test_signup.py::TEST_signup[row 1]" ∧
    slugify "a::b" = slugify "A/b" := by
  refine ⟨?_, ?_, ?_, ?_, by decide, by decide⟩
  · intro c hc
    simp only [slugify] at hc
    have h1 := (List.take_prefix 120 _).sublist.subset hc
    have h2 := stripUnderscores_subset _ c h1
    have h3 := collapseUnderscoresAux_subset _ false c h2
    exact subDisallowedAux_allowed _ false c h3
  · simp only [slugify]
    refine List.Chain'.prefix ?_ (List.take_prefix _ _)
    exact stripUnderscores_chain (collapseUnderscoresAux_chain _ false)
  · simp only [slugify]
    exact List.length_take_le _ _
  · intro t h
    have h1 : (pyStrip s.data).map pyLowerChar = (pyStrip t.data).map pyLowerChar := by
      calc (pyStrip s.data).map pyLowerChar
          = pyStrip (s.data.map pyLowerChar) := (pyStrip_map_pyLowerChar _).symm
        _ = pyStrip (t.data.map pyLowerChar) := by rw [h]
        _ = (pyStrip t.data).map pyLowerChar := pyStrip_map_pyLowerChar _
    simp only [slugify, h1]

/-- Witness for C4 at a concrete input: two node ids differing only in
case produce the same slug. -/
theorem slugify_spec_witness :
    slugify "src/tests/test_login.py::test_ok[Row 2]" =
      slugify "SRC/tests/TEST_login.py::test_ok[row 2]" :=
  (slugify_spec "src/tests/test_login.py::test_ok[Row 2]").2.2.2.1
    "SRC/tests/TEST_login.py::test_ok[row 2]" (by decide)

theorem read_csv_header_mode_eq (rawRows : List (List (String × Option String)))
    (mode : String) (required : List String) (hreq : required ≠ []) :
    read_csv_header_mode rawRows mode required =
      if required.filter (fun c => c ∉ firstRowKeys rawRows mode) ≠ [] then
        .error (required.filter (fun c => c ∉ firstRowKeys rawRows mode))
      else .ok (rawRows.map (clean_row mode)) := by
  cases rawRows with
  | nil =>
    simp only [read_csv_header_mode, firstRowKeys, List.map_nil]
    rw [if_pos hreq]
    have hfil : required.filter (fun c => c ∉ ([] : List String)) = required := by
      apply List.filter_eq_self.mpr
      intro a _
      simp
    rw [hfil, if_pos hreq]
  | cons r rest =>
    simp only [read_csv_header_mode, firstRowKeys, List.map_cons]
    rw [if_pos hreq]

/-- C6: in header mode with a non-empty required-columns sequence,
`read_csv` raises the missing-columns `KeyError` exactly when not every
required column is among the first row's normalized keys, the raised error
names exactly the missing columns, and when all required columns are
present it returns the cleaned rows without error. -/
theorem read_csv_required_columns (rawRows : List (List (String × Option String)))
    (mode : String) (required : List String) (hreq : required ≠ []) :
    ((∃ missing, read_csv_header_mode rawRows mode required = .error missing) ↔
      ¬ ∀ c ∈ required, c ∈ firstRowKeys rawRows mode) ∧
    (∀ missing, read_csv_header_mode rawRows mode required = .error missing →
      missing = required.filter (fun c => c ∉ firstRowKeys rawRows mode)) ∧
    (read_csv_header_mode rawRows mode required = .ok (rawRows.map (clean_row mode)) ↔
      ∀ c ∈ required, c ∈ firstRowKeys rawRows mode) := by
  have heq := read_csv_header_mode_eq rawRows mode required hreq
  by_cases hm : required.filter (fun c => c ∉ firstRowKeys rawRows mode) = []
  · have hall : ∀ c ∈ required, c ∈ firstRowKeys rawRows mode := by
      intro c hc
      have := List.filter_eq_nil_iff.mp hm c hc
      simpa using this
    rw [heq, if_neg (fun hcon => hcon hm)]
    refine ⟨?_, ?_, ?_⟩
    · constructor
      · rintro ⟨m, hmm⟩
        exact absurd hmm (by simp)
      · intro hcon
        exact absurd hall hcon
    · intro m hmm
      exact absurd hmm (by simp)
    · simpa using hall
  · have hex : ¬ ∀ c ∈ required, c ∈ firstRowKeys rawRows mode := by
      intro hall
      apply hm
      apply List.filter_eq_nil_iff.mpr
      intro c hc
      simp [hall c hc]
    rw [heq, if_pos hm]
    refine ⟨?_, ?_, ?_⟩
    · exact ⟨fun _ => hex, fun _ => ⟨_, rfl⟩⟩
    · intro m hmm
      injection hmm with h
      exact h.symm
    · constructor
      · intro hcon
        exact absurd hcon (by simp)
      · intro hall
        exact absurd hall hex

/-- Witness for C6 at a concrete input: one data row with headers
`Email`/`Password`, required `["email", "phone"]`: the call fails naming
exactly the missing column `phone`. -/
theorem read_csv_required_columns_witness :
    read_csv_header_mode [[("Email", some "a@x.com"), ("Password", some "pw1")]]
        "lower_underscore" ["email", "phone"] = .error ["phone"] := by
  obtain ⟨m, hm⟩ :=
    (read_csv_required_columns [[("Email", some "a@x.com"), ("Password", some "pw1")]]
      "lower_underscore" ["email", "phone"] (by decide)).1.mpr (by decide)
  have hv :=
    (read_csv_required_columns [[("Email", some "a@x.com"), ("Password", some "pw1")]]
      "lower_underscore" ["email", "phone"] (by decide)).2.1 m hm
  rw [hm, hv,
    show (["email", "phone"].filter (fun c => c ∉
        firstRowKeys [[("Email", some "a@x.com"), ("Password", some "pw1")]]
          "lower_underscore")) = ["phone"] from by decide]

/-- C10: in header mode with a header line but zero data rows and a
non-empty required-columns sequence, `read_csv` raises the missing-columns
`KeyError` listing every required column as missing — the header content is
never consulted, since no row dict exists. -/
theorem read_csv_no_rows_all_missing (mode : String) (required : List String)
    (hreq : required ≠ []) :
    read_csv_header_mode [] mode required = .error required := by
  simp only [read_csv_header_mode, List.map_nil]
  rw [if_pos hreq, if_pos hreq]

/-- Witness for C10 at a concrete input: required `["email", "password"]`
over a CSV with zero data rows fails listing both columns. -/
theorem read_csv_no_rows_all_missing_witness :
    read_csv_header_mode [] "lower_underscore" ["email", "password"] =
      .error ["email", "password"] :=
  read_csv_no_rows_all_missing "lower_underscore" ["email", "password"] (by decide)

/-- C2: `VideoRecorder.stop()` by captured-frame count: zero frames yields
no output video and a non-empty `reason()` afterwards; exactly one frame is
duplicated so the encoder receives two frames and (when the encoder is
present and functions) an output video is still produced; two or more
frames go to the encoder unduplicated. -/
theorem VideoRecorder_stop_frame_cases (n : Nat) (r : String) (env : EncodeEnv) :
    (n = 0 →
      (VideoRecorder_stop ⟨some n, r⟩ env).producedVideo = false ∧
      (VideoRecorder_stop ⟨some n, r⟩ env).reason ≠ "") ∧
    (n = 1 →
      (VideoRecorder_stop ⟨some n, r⟩ env).encoderInputFrames = 2 ∧
      (env.ffmpegFound = true → env.encoderExitZero = true →
        env.outfileAppears = true →
        (VideoRecorder_stop ⟨some n, r⟩ env).producedVideo = true)) ∧
    (2 ≤ n →
      (VideoRecorder_stop ⟨some n, r⟩ env).encoderInputFrames = n ∧
      (env.ffmpegFound = true →
        (VideoRecorder_stop ⟨some n, r⟩ env).encoderInvoked = true)) := by
  refine ⟨?_, ?_, ?_⟩
  · rintro rfl
    refine ⟨rfl, ?_⟩
    simp only [VideoRecorder_stop]
    norm_num
    split <;> simp_all
  · rintro rfl
    constructor
    · simp only [VideoRecorder_stop]
      norm_num
      split_ifs <;> rfl
    · intro h1 h2 h3
      simp only [VideoRecorder_stop]
      norm_num
      simp [h1, h2, h3]
  · intro hn
    have h1 : n ≠ 1 := by omega
    have h0 : n ≠ 0 := by omega
    constructor
    · simp only [VideoRecorder_stop, if_neg h1]
      rw [if_pos h0]
      split_ifs <;> rfl
    · intro hff
      simp only [VideoRecorder_stop, if_neg h1]
      rw [if_pos h0]
      rcases env with ⟨ff, ez, oa⟩
      subst hff
      cases ez <;> cases oa <;> simp

/-- Witness for C2 at concrete inputs: zero frames (with a working
encoder environment) produce no video and a non-empty reason; one frame is
duplicated to two and a video is produced. -/
theorem VideoRecorder_stop_frame_cases_witness :
    ((VideoRecorder_stop ⟨some 0, ""⟩ ⟨true, true, true⟩).producedVideo = false ∧
      (VideoRecorder_stop ⟨some 0, ""⟩ ⟨true, true, true⟩).reason ≠ "") ∧
    ((VideoRecorder_stop ⟨some 1, ""⟩ ⟨true, true, true⟩).encoderInputFrames = 2 ∧
      (VideoRecorder_stop ⟨some 1, ""⟩ ⟨true, true, true⟩).producedVideo = true) :=
  ⟨(VideoRecorder_stop_frame_cases 0 "" ⟨true, true, true⟩).1 rfl,
   ((VideoRecorder_stop_frame_cases 1 "" ⟨true, true, true⟩).2.1 rfl).1,
   ((VideoRecorder_stop_frame_cases 1 "" ⟨true, true, true⟩).2.1 rfl).2 rfl rfl rfl⟩

/-- C3: whenever a frames directory exists at `stop()` time, the temp
frame files are deleted and the frames-dir reference is cleared by the end
of the stop sequence, for every encoder environment (encoder absent,
non-zero exit, missing output, success) and every frame count. -/
theorem VideoRecorder_stop_cleans_frames (s : RecorderState) (env : EncodeEnv)
    (h : s.framesDir ≠ none) :
    (VideoRecorder_stop s env).framesDir = none ∧
    (VideoRecorder_stop s env).framesDirRemoved = true := by
  rcases s with ⟨fd, r⟩
  cases fd with
  | none => exact absurd rfl h
  | some n =>
    simp only [VideoRecorder_stop]
    split_ifs <;> simp

/-- Witness for C3 at a concrete input: five frames, encoder absent — the
frames dir is still removed and its reference cleared. -/
theorem VideoRecorder_stop_cleans_frames_witness :
    (VideoRecorder_stop ⟨some 5, ""⟩ ⟨false, false, false⟩).framesDir = none ∧
    (VideoRecorder_stop ⟨some 5, ""⟩ ⟨false, false, false⟩).framesDirRemoved = true :=
  VideoRecorder_stop_cleans_frames ⟨some 5, ""⟩ ⟨false, false, false⟩ (by simp)

/-- C8: the suite runner's own exit code is the worst (maximum) exit code
across the per-browser pytest invocations: it is `0` exactly when every
invocation exits `0`, and otherwise it is attained by some invocation and
bounds them all from above. -/
theorem run_suite_worst_exit_code (codes : List Int)
    (hnn : ∀ c ∈ codes, 0 ≤ c) :
    ((∀ c ∈ codes, c = 0) → worst_exit_code codes = 0) ∧
    ((∃ c ∈ codes, c ≠ 0) →
      worst_exit_code codes ∈ codes ∧
        ∀ c ∈ codes, c ≤ worst_exit_code codes) := by
  constructor
  · intro hall
    have h1 := worst_exit_code_foldl_ge codes 0
    have h2 := worst_exit_code_foldl_attained codes 0
    unfold worst_exit_code
    rcases h2 with h2 | h2
    · exact hall _ h2
    · exact h2
  · rintro ⟨c, hc, hcne⟩
    have hub : ∀ d ∈ codes, d ≤ worst_exit_code codes := fun d hd =>
      worst_exit_code_foldl_mem codes 0 d hd
    refine ⟨?_, hub⟩
    rcases worst_exit_code_foldl_attained codes 0 with h | h
    · exact h
    · exfalso
      have hc0 : 0 ≤ c := hnn c hc
      have hle : c ≤ worst_exit_code codes := hub c hc
      have h' : worst_exit_code codes = 0 := h
      rw [h'] at hle
      omega

/-- Witness for C8 at a concrete input: exit codes `[0, 2, 1]` aggregate to
`2`, which is attained and maximal. -/
theorem run_suite_worst_exit_code_witness :
    worst_exit_code [0, 2, 1] ∈ [(0 : Int), 2, 1] ∧
      ∀ c ∈ [(0 : Int), 2, 1], c ≤ worst_exit_code [0, 2, 1] :=
  (run_suite_worst_exit_code [0, 2, 1] (by decide)).2 ⟨2, by decide, by decide⟩

/-! ## Report-hook lemmas and C1 -/

theorem processReport_setup_passed (cap rn lp : Bool) (st : HookState) :
    processReport cap rn lp st .setup .passed = st := rfl

theorem processReport_call_passed (cap rn lp : Bool) (st : HookState) :
    processReport cap rn lp st .call .passed = st := rfl

theorem processReport_failHandle (cap rn lp : Bool) (b : Nat) (w : Phase) (o : Outcome)
    (hw : w = .setup ∨ w = .call) (ho : o = .failed ∨ o = .skipped) :
    processReport cap rn lp (freshState b) w o =
      { hadFailure := true, dirExists := true, screenshotExists := cap,
        logFile := if lp then some (b + (if rn then 2 else 1)) else none,
        videoExists := false,
        bufferedRecords := if lp then 0 else b,
        fileHandlerAttached := lp,
        attachments := (if cap then ["screenshot.png"] else []) ++
          (if lp then ["test.log"] else []) } := by
  rcases hw with rfl | rfl <;> rcases ho with rfl | rfl <;>
    cases cap <;> cases rn <;> cases lp <;>
      simp only [processReport, freshState] <;>
      norm_num

theorem recorderStop_freshState (va vp : Bool) (b : Nat) :
    recorderStop va vp (freshState b) =
      { freshState b with dirExists := va, videoExists := va && vp } := by
  simp [recorderStop, freshState]

theorem processReport_teardown_clean (cap rn lp : Bool) (b : Nat) (d v : Bool)
    (o : Outcome) :
    processReport cap rn lp { freshState b with dirExists := d, videoExists := v }
      .teardown o = freshState (if lp then 0 else b) := by
  cases d <;> cases v <;> cases lp <;> rfl

theorem processReport_teardown_failure (cap rn lp : Bool) (st : HookState)
    (o : Outcome) (h : st.hadFailure = true) :
    processReport cap rn lp st .teardown o =
      if st.videoExists then { st with attachments := st.attachments ++ ["test.mp4"] }
      else st := by
  simp [processReport, h]

theorem clean_run_state (cap rn lp va vp : Bool) (b : Nat) (co : Option Outcome)
    (td : Outcome) (hco : co = none ∨ co = some .passed) :
    runTest ⟨.passed, co, td, cap, rn, lp, va, vp⟩ b =
      freshState (if lp then 0 else b) := by
  unfold runTest
  simp only [processReport_setup_passed]
  rcases hco with rfl | rfl <;>
    simp only [processReport_call_passed, recorderStop_freshState,
      processReport_teardown_clean]

theorem runTest_eq_some (so o td : Outcome) (cap rn lp va vp : Bool) (b : Nat) :
    runTest ⟨so, some o, td, cap, rn, lp, va, vp⟩ b =
      processReport cap rn lp
        (recorderStop va vp
          (processReport cap rn lp
            (processReport cap rn lp (freshState b) .setup so) .call o))
        .teardown td := rfl

theorem runTest_eq_none (so td : Outcome) (cap rn lp va vp : Bool) (b : Nat) :
    runTest ⟨so, none, td, cap, rn, lp, va, vp⟩ b =
      processReport cap rn lp
        (recorderStop va vp (processReport cap rn lp (freshState b) .setup so))
        .teardown td := rfl

theorem recorderStop_eq (va vp : Bool) (st : HookState) :
    recorderStop va vp st =
      { st with dirExists := st.dirExists || va,
                videoExists := st.videoExists || (va && vp) } := rfl

theorem fail_run_state (cap rn lp va vp : Bool) (b : Nat) (so : Outcome)
    (co : Option Outcome) (td : Outcome)
    (hfail : (so = .passed ∧ (co = some .failed ∨ co = some .skipped) ∧ so = .passed) ∨
      ((so = .failed ∨ so = .skipped) ∧ co = none)) :
    runTest ⟨so, co, td, cap, rn, lp, va, vp⟩ b =
      (let fs : HookState :=
        { hadFailure := true, dirExists := true, screenshotExists := cap,
          logFile := if lp then some (b + (if rn then 2 else 1)) else none,
          videoExists := false,
          bufferedRecords := if lp then 0 else b,
          fileHandlerAttached := lp,
          attachments := (if cap then ["screenshot.png"] else []) ++
            (if lp then ["test.log"] else []) }
       let fs := { fs with dirExists := true, videoExists := va && vp }
       if va && vp then { fs with attachments := fs.attachments ++ ["test.mp4"] }
       else fs) := by
  rcases hfail with ⟨rfl, hco, -⟩ | ⟨hso, rfl⟩
  · rcases hco with rfl | rfl <;>
      rw [runTest_eq_some, processReport_setup_passed,
        processReport_failHandle cap rn lp b .call _ (Or.inr rfl) (by simp),
        recorderStop_eq,
        processReport_teardown_failure _ _ _ _ _ rfl] <;>
      cases va <;> cases vp <;> simp
  · rcases hso with rfl | rfl <;>
      rw [runTest_eq_none,
        processReport_failHandle cap rn lp b .setup _ (Or.inl rfl) (by simp),
        recorderStop_eq,
        processReport_teardown_failure _ _ _ _ _ rfl] <;>
      cases va <;> cases vp <;> simp

/-- C1 counterexample: the claim as stated fails on the code at two
concrete runs.  (1) Setup and call pass but the teardown phase fails (video
produced, screenshot capturable): the hook still takes the cleanup path —
it tracks `_had_failure` only for setup/call reports — so no log, video or
screenshot remains, while the claim demands the failure artifacts for "any
phase failed".  (2) Setup fails before the `test_logger` fixture exists
(e.g. the session driver fixture raises): the `if tl:` guard skips log
materialization and attachment, so no log file exists, while the claim
demands a non-empty attached log. -/
theorem claimC1Spec_counterexample :
    ¬ claimC1Spec ⟨.passed, some .passed, .failed, true, true, true, true, true⟩ 0 ∧
    ¬ claimC1Spec ⟨.failed, none, .passed, false, true, false, false, false⟩ 0 := by
  decide

/-- C1 (amended): after the teardown report, if the setup and call phases
both completed without failure or skip, no residual artifacts remain (the
buffered log is never written, the log file is absent, the video file is
deleted, the artifact directory is removed, nothing is attached) — even
when the teardown phase itself failed; if the setup or call phase failed
or was skipped, then: when the `test_logger` fixture was available the log
file exists non-empty and is attached (and no log file exists when it was
not), a screenshot exists and is attached when capturable, and a video
exists and is attached when one was produced.  The hypothesis is the
pytest protocol shape: the call phase runs only when setup passed. -/
theorem pytest_makereport_artifact_lifecycle (r : TestRun) (b : Nat)
    (hvalid : r.setupOutcome ≠ .passed → r.callOutcome = none) :
    claimC1Amended r b := by
  rcases r with ⟨so, co, td, cap, rn, lp, va, vp⟩
  unfold claimC1Amended
  by_cases hclean : setupCallClean ⟨so, co, td, cap, rn, lp, va, vp⟩
  · rw [if_pos hclean]
    obtain ⟨h1, h2⟩ := hclean
    simp only at h1 h2
    subst h1
    rw [clean_run_state cap rn lp va vp b co td h2]
    simp [noResidualArtifacts, freshState]
  · rw [if_neg hclean]
    have hfail : (so = .passed ∧ (co = some .failed ∨ co = some .skipped) ∧
        so = .passed) ∨ ((so = .failed ∨ so = .skipped) ∧ co = none) := by
      cases so with
      | passed =>
        left
        refine ⟨rfl, ?_, rfl⟩
        cases co with
        | none => exact absurd (by simp [setupCallClean]) hclean
        | some o =>
          cases o with
          | passed => exact absurd (by simp [setupCallClean]) hclean
          | failed => exact Or.inl rfl
          | skipped => exact Or.inr rfl
      | failed => exact Or.inr ⟨Or.inl rfl, hvalid (by simp)⟩
      | skipped => exact Or.inr ⟨Or.inr rfl, hvalid (by simp)⟩
    rw [fail_run_state cap rn lp va vp b so co td hfail]
    cases cap <;> cases rn <;> cases lp <;> cases va <;> cases vp <;>
      simp [codeFailureArtifacts, logNonempty, videoWasProduced]

/-- Witness for the amended C1 at concrete inputs: a clean pass leaves no
residual artifacts; a call-phase failure (logger present, capturable,
video produced) leaves the non-empty attached log, the screenshot and the
video; a setup failure before the logger fixture exists leaves no log. -/
theorem pytest_makereport_artifact_lifecycle_witness :
    claimC1Amended ⟨.passed, some .passed, .passed, true, true, true, true, true⟩ 0 ∧
    claimC1Amended ⟨.passed, some .failed, .passed, true, true, true, true, true⟩ 3 ∧
    claimC1Amended ⟨.failed, none, .passed, false, true, false, false, false⟩ 0 :=
  ⟨pytest_makereport_artifact_lifecycle
      ⟨.passed, some .passed, .passed, true, true, true, true, true⟩ 0
      (fun h => absurd rfl h),
   pytest_makereport_artifact_lifecycle
      ⟨.passed, some .failed, .passed, true, true, true, true, true⟩ 3
      (fun h => absurd rfl h),
   pytest_makereport_artifact_lifecycle
      ⟨.failed, none, .passed, false, true, false, false, false⟩ 0
      (fun _ => rfl)⟩

end HotelPlanisphere
